import Mathlib

/-!
Verification of the operational state machine, catalog scope resolver and
backup/evidence lifecycle of `backend/main.py` (zeroatcampus).  The Python
module keeps one process-wide mutable dictionary `state`; we embed it as the
structure `OpState` and each endpoint as a pure state transformer.  Wall-clock
readings (`time.time()`, `time.strftime`) are passed in as explicit
parameters; the filesystem seen by `verify_backup` is passed as a partial map
from path to file size.
-/

namespace ZeroCampus

/-- Incident record as stored in `state["incidents"]`. -/
structure Incident where
  ts : String
  type : String
  action : String
  result : String
  severity : String
  duration_ms : Option Nat
deriving Repr, DecidableEq

/-- Workflow record as stored in `state["workflows"]`. -/
structure Workflow where
  name : String
  status : String
  last_run : String
  next_run : String
deriving Repr, DecidableEq

/-- The `state["last_backup"]` record: `{ts, file, size}`, with `ts`/`file`
initially `None`. -/
structure Backup where
  ts : Option String
  file : Option String
  size : Nat
deriving Repr, DecidableEq

/-- The process-wide `state` dictionary of `backend/main.py`. -/
structure OpState where
  system_status : String
  last_incident : Option String
  workflows : List Workflow
  incidents : List Incident
  last_backup : Backup
deriving Repr, DecidableEq

def wfIncidentAgent : Workflow :=
  { name := "Incident Agent", status := "Running", last_run := "2m ago", next_run := "in 3m" }

def wfEvidenceAgent : Workflow :=
  { name := "Evidence Agent", status := "Running", last_run := "5m ago", next_run := "in 10m" }

def wfBackupAgent : Workflow :=
  { name := "Backup Agent", status := "Idle", last_run := "1h ago", next_run := "in 5h" }

def wfForecastRefresh : Workflow :=
  { name := "Forecast Refresh", status := "Running", last_run := "10m ago", next_run := "in 50m" }

/-- The initial value of `state` in `backend/main.py`. -/
def initState : OpState :=
  { system_status := "OK"
    last_incident := none
    workflows := [wfIncidentAgent, wfEvidenceAgent, wfBackupAgent, wfForecastRefresh]
    incidents := []
    last_backup := { ts := none, file := none, size := 0 } }

/-- The mutation `state["workflows"][0]["status"] = st`.  The Python list always
has four entries; on an empty list the subscript would raise, a case no claim
exercises, mapped here to the unchanged list. -/
def setWf0Status (st : String) : List Workflow → List Workflow
  | [] => []
  | w :: ws => { w with status := st } :: ws

/-- The bounded-log discipline `if len(state["incidents"]) > 5: state["incidents"].pop()`
applied right after an `insert(0, incident)`: a single `pop()` removes the last
(oldest) element. -/
def capIncidents (l : List Incident) : List Incident :=
  if l.length > 5 then l.dropLast else l

/-- `POST /api/simulate/fail` (`simulate_fail`): sets `system_status` to
`DEGRADED`, `last_incident` to a fixed description and workflow 0 to
`Retrying...`.  It does not touch the incident log. -/
def simulate_fail (s : OpState) : OpState :=
  { s with
    system_status := "DEGRADED"
    last_incident := some "API Latency Spike detected"
    workflows := setWf0Status "Retrying..." s.workflows }

/-- The incident record built by `real_fail`; `ts` is `time.strftime("%H:%M:%S")`. -/
def failIncident (ts : String) : Incident :=
  { ts := ts, type := "api_failure_demo", action := "restart_api",
    result := "Pending", severity := "HIGH", duration_ms := some 0 }

/-- `POST /api/selfheal/fail` (`real_fail`): sets `system_status` to
`DEGRADED`, inserts a `Pending` incident at the front of the log (evicting the
oldest if the log exceeds 5) and sets `last_incident`.  Workflows are not
modified. -/
def real_fail (ts : String) (s : OpState) : OpState × Incident :=
  let inc := failIncident ts
  ({ s with
      system_status := "DEGRADED"
      incidents := capIncidents (inc :: s.incidents)
      last_incident := some "Critical Failure: API Unresponsive" }, inc)

/-- The first registration of `POST /api/selfheal/run` (`self_heal`):
sleeps, passes through `HEALING`, ends `OK`, and unconditionally inserts a new
`Resolved` incident (capping the log).  `durationMs` is the measured elapsed
time `int((time.time() - start) * 1000)`. -/
def self_heal (ts : String) (durationMs : Nat) (s : OpState) : OpState × Incident :=
  let inc : Incident :=
    { ts := ts, type := "Latency Spike", action := "Auto-Scale + Cache Flush",
      result := "Resolved", severity := "HIGH", duration_ms := some durationMs }
  ({ s with
      system_status := "OK"
      incidents := capIncidents (inc :: s.incidents)
      last_incident := some ("Resolved: " ++ inc.type)
      workflows := setWf0Status "Running" s.workflows }, inc)

/-- The scan-and-mutate loop of `real_heal`: walks the log front (most recent)
first, and on the first record with `type == "api_failure_demo"` and
`result == "Pending"` rewrites it in place to `Recovered` with
`duration_ms = 12800`, returning the updated log and the mutated record;
`none` when no record matches. -/
def healMatch : List Incident → Option (List Incident × Incident)
  | [] => none
  | inc :: rest =>
    if inc.type = "api_failure_demo" ∧ inc.result = "Pending" then
      let inc' := { inc with result := "Recovered", duration_ms := some 12800 }
      some (inc' :: rest, inc')
    else
      match healMatch rest with
      | some (rest', found) => some (inc :: rest', found)
      | none => none

/-- The fallback incident synthesized by `real_heal` when no pending incident
is found. -/
def manualIncident (ts : String) : Incident :=
  { ts := ts, type := "api_restart_manual", action := "restart_api",
    result := "Recovered", severity := "HIGH", duration_ms := some 12800 }

/-- The second registration of `POST /api/selfheal/run` (`real_heal`): sleeps,
passes through `HEALING`, ends `OK`; mutates the most recent pending
`api_failure_demo` incident in place, or, if none exists, inserts a synthesized
`api_restart_manual` incident at the front — without applying the 5-entry cap.
Restores workflow 0 to `Running` and sets `last_incident`. -/
def real_heal (ts : String) (s : OpState) : OpState × Incident :=
  match healMatch s.incidents with
  | some (incs', found) =>
    ({ s with
        system_status := "OK"
        incidents := incs'
        last_incident := some "System Recovered"
        workflows := setWf0Status "Running" s.workflows }, found)
  | none =>
    let inc := manualIncident ts
    ({ s with
        system_status := "OK"
        incidents := inc :: s.incidents
        last_incident := some "System Recovered"
        workflows := setWf0Status "Running" s.workflows }, inc)

/-! Catalog resolver (`load_catalog` / `get_scope_kpis`).  KPI values are JSON
numbers, embedded as rationals. -/

/-- A department node of the catalog JSON. -/
structure Department where
  id : String
  name : String
  kpis : List (String × ℚ)
  levers : List String
deriving Repr, DecidableEq

/-- A faculty node of the catalog JSON. -/
structure Faculty where
  id : String
  name : String
  kpis : List (String × ℚ)
  levers : List String
  departments : List Department
deriving Repr, DecidableEq

/-- The `campus` node of the catalog JSON. -/
structure CampusNode where
  kpis : List (String × ℚ)
  levers : List String
deriving Repr, DecidableEq

/-- The loaded catalog (`catalog_cache`); `none` models a missing or
malformed catalog file. -/
structure Catalog where
  campus : CampusNode
  faculties : List Faculty
deriving Repr, DecidableEq

/-- The JSON object returned by `get_scope_kpis` on success.  The emergency
fallback dictionary carries no `name` key, hence `name : Option String`. -/
structure ScopeResult where
  scope : String
  name : Option String
  kpis : List (String × ℚ)
  levers : List String
deriving Repr, DecidableEq

/-- `get_scope_kpis` either returns a scope result or the bare `{}` of the
final `return {}` line. -/
inductive ScopeResponse where
  | result (r : ScopeResult)
  | empty
deriving Repr, DecidableEq

/-- Client-facing errors raised as `HTTPException`: 404 not-found and the
backup integrity failure. -/
inductive ApiError where
  | notFound (detail : String)
  | integrityError (detail : String)
deriving Repr, DecidableEq

/-- The hardcoded emergency campus snapshot returned when no catalog is
loaded. -/
def fallbackCampusResult : ScopeResult :=
  { scope := "campus"
    name := none
    kpis := [("co2e_t", (18450 : ℚ)), ("energy_mwh", (14200 : ℚ)),
             ("water_m3", (45000 : ℚ)), ("intensity", (1.2 : ℚ)), ("progress", (42 : ℚ))]
    levers := [] }

/-- The department search of the `scope == "department"` branch: for each
faculty in catalog order, take the first department whose id equals the query;
stop at the first faculty producing a match. -/
def findDeptInFaculties (fs : List Faculty) (i : Option String) : Option Department :=
  match fs with
  | [] => none
  | f :: rest =>
    match f.departments.find? (fun d => some d.id == i) with
    | some d => some d
    | none => findDeptInFaculties rest i

/-- `GET /api/kpi/scope` (`get_scope_kpis`): with no catalog, returns the
hardcoded campus snapshot whatever the requested scope; otherwise dispatches on
the scope string, 404s on unknown faculty/department ids, and answers `{}` for
any other scope value. -/
def get_scope_kpis (scope : String) (i : Option String) (data : Option Catalog) :
    Except ApiError ScopeResponse :=
  match data with
  | none => .ok (.result fallbackCampusResult)
  | some c =>
    if scope = "campus" then
      .ok (.result { scope := "campus", name := some "Campus Overview",
                     kpis := c.campus.kpis, levers := c.campus.levers })
    else if scope = "faculty" then
      match c.faculties.find? (fun f => some f.id == i) with
      | none => .error (.notFound "Faculty not found")
      | some f =>
        .ok (.result { scope := "faculty", name := some f.name,
                       kpis := f.kpis, levers := f.levers })
    else if scope = "department" then
      match findDeptInFaculties c.faculties i with
      | none => .error (.notFound "Department not found")
      | some d =>
        .ok (.result { scope := "department", name := some d.name,
                       kpis := d.kpis, levers := d.levers })
    else
      .ok .empty

/-! Backup and evidence lifecycle. -/

def BACKUP_DIR : String := "runtime/backups"

def EVIDENCE_DIR : String := "runtime/evidence"

/-- `os.path.join(BACKUP_DIR, filename)`. -/
def backupPath (f : String) : String := BACKUP_DIR ++ "/" ++ f

/-- Decimal rendering of a natural number, the model of Python's `str(int)`
inside the f-strings that build artifact names. -/
def decimalStr (n : Nat) : String :=
  if n = 0 then "0" else ⟨((Nat.digits 10 n).map Nat.digitChar).reverse⟩

/-- The archive name `f"backup_{int(time.time())}.tar.gz"`. -/
def backupFilename (t : Nat) : String := "backup_" ++ decimalStr t ++ ".tar.gz"

/-- `POST /api/backup/run` (`run_backup`): the resulting `state["last_backup"]`
record; `iso` is `datetime.now().isoformat()`, `t` is `int(time.time())` and
`sz` the size of the archive just written. -/
def run_backup (iso : String) (t : Nat) (sz : Nat) : Backup :=
  { ts := some iso, file := some (backupFilename t), size := sz }

/-- `POST /api/backup/verify` (`verify_backup`): 404 when no backup is
referenced (Python `if not lb["file"]` — falsy for `None` and for the empty
string), integrity error when the referenced archive is missing or empty
(`fsize` maps an existing path to its size), otherwise ok. -/
def verify_backup (lb : Backup) (fsize : String → Option Nat) : Except ApiError Unit :=
  match lb.file with
  | none => .error (.notFound "No backup found")
  | some f =>
    if f = "" then .error (.notFound "No backup found")
    else
      match fsize (backupPath f) with
      | some sz =>
        if sz > 0 then .ok () else .error (.integrityError "Backup file missing or empty")
      | none => .error (.integrityError "Backup file missing or empty")

/-- The pack identifier `f"evidence_{int(time.time())}"` of
`build_evidence_pack`; `t` is the whole-second clock reading. -/
def evidencePackId (t : Nat) : String := "evidence_" ++ decimalStr t

/-- The archive path `os.path.join(EVIDENCE_DIR, f"{pack_id}.zip")` that
`build_evidence_pack` writes. -/
def evidenceZipPath (t : Nat) : String := EVIDENCE_DIR ++ "/" ++ (evidencePackId t ++ ".zip")

/-- Two `build_evidence_pack` calls observed at clock seconds `t1` and `t2`
produce distinct pack identifiers and write distinct archives. -/
def packsDistinct (t1 t2 : Nat) : Prop :=
  evidencePackId t1 ≠ evidencePackId t2 ∧ evidenceZipPath t1 ≠ evidenceZipPath t2

/-! A small concrete catalog used to instantiate the lookup theorems: two
faculties, each owning a department with the same id `d1`. -/

def deptD1Eng : Department :=
  { id := "d1", name := "Mechatronics", kpis := [("co2e_t", (100 : ℚ))], levers := ["led"] }

def deptD1Arts : Department :=
  { id := "d1", name := "Graphic Design", kpis := [("co2e_t", (50 : ℚ))], levers := [] }

def facEng : Faculty :=
  { id := "eng", name := "Engineering", kpis := [("co2e_t", (900 : ℚ))], levers := [],
    departments := [deptD1Eng] }

def facArts : Faculty :=
  { id := "arts", name := "Fine Arts", kpis := [("co2e_t", (300 : ℚ))], levers := [],
    departments := [deptD1Arts] }

def sampleCatalog : Catalog :=
  { campus := { kpis := [("co2e_t", (18450 : ℚ))], levers := [] },
    faculties := [facEng, facArts] }

/-- All departments of all faculties, in catalog scan order (faculties in
insertion order, departments in order inside each faculty). -/
def allDepts : List Faculty → List Department
  | [] => []
  | f :: rest => f.departments ++ allDepts rest

theorem findDeptInFaculties_eq_find? (fs : List Faculty) (i : Option String) :
    findDeptInFaculties fs i = (allDepts fs).find? (fun d => some d.id == i) := by
  induction fs with
  | nil => rfl
  | cons f rest ih =>
    rw [findDeptInFaculties, allDepts, List.find?_append, ih]
    cases f.departments.find? (fun d => some d.id == i) <;> simp

theorem mem_allDepts {d : Department} {fs : List Faculty} :
    d ∈ allDepts fs ↔ ∃ f ∈ fs, d ∈ f.departments := by
  induction fs with
  | nil => simp [allDepts]
  | cons f rest ih => simp [allDepts, ih, List.mem_append, or_and_right, exists_or]

/-- C4 (confirmed): with a catalog loaded, `scope=department` resolution
returns the first department whose id equals the query in catalog scan order —
faculties in insertion order, departments in order within each, regardless of
which faculty owns the department — and fails with `NotFound` exactly when no
faculty contains a department with that id. -/
theorem C4_department_first_match (c : Catalog) (X : String) :
    (get_scope_kpis "department" (some X) (some c) =
      match (allDepts c.faculties).find? (fun d => d.id == X) with
      | some d => .ok (.result { scope := "department", name := some d.name,
                                 kpis := d.kpis, levers := d.levers })
      | none => .error (.notFound "Department not found"))
    ∧ (get_scope_kpis "department" (some X) (some c) = .error (.notFound "Department not found")
        ↔ ∀ f ∈ c.faculties, ∀ d ∈ f.departments, d.id ≠ X) := by
  have hpred : (fun d : Department => some d.id == some X) = (fun d => d.id == X) := by
    funext d; rfl
  have hmain : get_scope_kpis "department" (some X) (some c) =
      match (allDepts c.faculties).find? (fun d => d.id == X) with
      | some d => .ok (.result { scope := "department", name := some d.name,
                                 kpis := d.kpis, levers := d.levers })
      | none => .error (.notFound "Department not found") := by
    show (match findDeptInFaculties c.faculties (some X) with
      | none => Except.error (ApiError.notFound "Department not found")
      | some d => Except.ok (ScopeResponse.result
          { scope := "department", name := some d.name,
            kpis := d.kpis, levers := d.levers })) = _
    rw [findDeptInFaculties_eq_find?, hpred]
    cases (allDepts c.faculties).find? (fun d => d.id == X) <;> rfl
  refine ⟨hmain, ?_⟩
  rw [hmain]
  cases hfind : (allDepts c.faculties).find? (fun d => d.id == X) with
  | some d =>
    simp only [reduceCtorEq, false_iff]
    intro hall
    have hmem := List.mem_of_find?_eq_some hfind
    have hp := List.find?_some hfind
    rw [mem_allDepts] at hmem
    obtain ⟨f, hf, hd⟩ := hmem
    exact hall f hf d hd (by simpa using hp)
  | none =>
    simp only [true_iff]
    rw [List.find?_eq_none] at hfind
    intro f hf d hd
    have := hfind d (mem_allDepts.mpr ⟨f, hf, hd⟩)
    simpa using this

/-- C5 counterexample: with no catalog loaded, `scope=faculty` with an unknown
id does not fail with `NotFound`; the emergency campus fallback is returned
instead (the no-catalog branch runs before any scope dispatch). -/
theorem C5_counterexample :
    get_scope_kpis "faculty" (some "unknown") none = .ok (.result fallbackCampusResult) := rfl

/-- C5 (corrected): with a catalog loaded, `scope=faculty` fails with
`NotFound` whenever no faculty id matches; with no catalog loaded the resolver
instead answers the hardcoded campus snapshot and never fails. -/
theorem C5_faculty_not_found (c : Catalog) (idStr : String)
    (h : ∀ f ∈ c.faculties, f.id ≠ idStr) :
    get_scope_kpis "faculty" (some idStr) (some c) = .error (.notFound "Faculty not found")
    ∧ ∀ i : Option String, get_scope_kpis "faculty" i none = .ok (.result fallbackCampusResult) := by
  constructor
  · have hfind : c.faculties.find? (fun f => some f.id == some idStr) = none := by
      rw [List.find?_eq_none]
      intro f hf
      simp only [beq_iff_eq, Option.some.injEq]
      exact h f hf
    show (match c.faculties.find? (fun f => some f.id == some idStr) with
      | none => Except.error (ApiError.notFound "Faculty not found")
      | some f => Except.ok (ScopeResponse.result
          { scope := "faculty", name := some f.name,
            kpis := f.kpis, levers := f.levers })) = _
    rw [hfind]
  · intro i; rfl

theorem C5_faculty_not_found_witness :
    (∀ f ∈ sampleCatalog.faculties, f.id ≠ "unknown")
    ∧ (get_scope_kpis "faculty" (some "unknown") (some sampleCatalog)
          = .error (.notFound "Faculty not found")
        ∧ ∀ i : Option String,
            get_scope_kpis "faculty" i none = .ok (.result fallbackCampusResult)) :=
  ⟨by decide, C5_faculty_not_found sampleCatalog "unknown" (by decide)⟩

/-- C6 (confirmed): with no catalog loaded, `scope=campus` resolution returns
the literal fallback snapshot with the five documented KPI values and an empty
lever list, and does not fail. -/
theorem C6_campus_fallback (i : Option String) :
    get_scope_kpis "campus" i none = .ok (.result fallbackCampusResult)
    ∧ fallbackCampusResult.kpis =
        [("co2e_t", (18450 : ℚ)), ("energy_mwh", (14200 : ℚ)), ("water_m3", (45000 : ℚ)),
         ("intensity", (1.2 : ℚ)), ("progress", (42 : ℚ))]
    ∧ fallbackCampusResult.levers = [] :=
  ⟨rfl, rfl, rfl⟩

/-- C10 (confirmed): with a catalog loaded, any scope value other than
`campus`, `faculty` or `department` falls through every branch and returns the
bare empty object, never an error; `get_scope_kpis` reads but never writes the
process state. -/
theorem C10_unknown_scope_empty (c : Catalog) (scope : String) (i : Option String)
    (h1 : scope ≠ "campus") (h2 : scope ≠ "faculty") (h3 : scope ≠ "department") :
    get_scope_kpis scope i (some c) = .ok .empty := by
  rw [get_scope_kpis]
  rw [if_neg h1, if_neg h2, if_neg h3]

theorem C10_unknown_scope_empty_witness :
    ("metrics" : String) ≠ "campus" ∧ ("metrics" : String) ≠ "faculty"
    ∧ ("metrics" : String) ≠ "department"
    ∧ get_scope_kpis "metrics" none (some sampleCatalog) = .ok .empty :=
  ⟨by decide, by decide, by decide,
    C10_unknown_scope_empty sampleCatalog "metrics" none (by decide) (by decide) (by decide)⟩

/-! State-machine lemmas and claims. -/

theorem capIncidents_cons (a : Incident) (l : List Incident) :
    capIncidents (a :: l) = a :: (if 5 ≤ l.length then l.dropLast else l) := by
  unfold capIncidents
  rcases l with _ | ⟨b, bs⟩
  · simp
  · rcases Nat.lt_or_ge (bs.length + 1) 5 with hlen | hlen
    · rw [if_neg (by simp only [List.length_cons]; omega),
        if_neg (by simp only [List.length_cons]; omega)]
    · rw [if_pos (by simp only [List.length_cons]; omega),
        if_pos (by simp only [List.length_cons]; omega)]
      simp

theorem healMatch_eq_none (l : List Incident)
    (h : ∀ inc ∈ l, ¬(inc.type = "api_failure_demo" ∧ inc.result = "Pending")) :
    healMatch l = none := by
  induction l with
  | nil => rfl
  | cons a t ih =>
    rw [healMatch, if_neg (h a (List.mem_cons_self a t)),
      ih (fun i hi => h i (List.mem_cons_of_mem a hi))]

theorem healMatch_cons_pending (a : Incident) (t : List Incident)
    (h1 : a.type = "api_failure_demo") (h2 : a.result = "Pending") :
    healMatch (a :: t) =
      some (({ a with result := "Recovered", duration_ms := some 12800 }) :: t,
        { a with result := "Recovered", duration_ms := some 12800 }) := by
  rw [healMatch, if_pos ⟨h1, h2⟩]

/-- C2 counterexample: at the initial state, `simulate_fail` leaves the
incident log empty (it inserts no record at all), and `real_fail` leaves every
workflow status unchanged (it sets no retrying marker); so no single fail
transition performs all the actions the claim lists. -/
theorem C2_counterexample :
    (simulate_fail initState).incidents = []
    ∧ (real_fail "00:00:00" initState).1.workflows = initState.workflows :=
  ⟨rfl, rfl⟩

/-- C2 (corrected): every fail transition sets health to `DEGRADED` and
`last_incident` to a fixed description, but the remaining actions are split
between the two variants: `simulate_fail` sets workflow 0 to the retrying
marker and inserts no incident record, while `real_fail` inserts a new record
at the front with `result = Pending`, `severity = HIGH`, `duration_ms = 0` —
evicting the oldest record when the log would exceed 5 entries — and leaves
every workflow status unchanged. -/
theorem C2_fail_transitions (s : OpState) (ts : String) (w : Workflow) (ws : List Workflow)
    (h : s.workflows = w :: ws) :
    (simulate_fail s).system_status = "DEGRADED"
    ∧ (simulate_fail s).last_incident = some "API Latency Spike detected"
    ∧ (simulate_fail s).workflows = { w with status := "Retrying..." } :: ws
    ∧ (simulate_fail s).incidents = s.incidents
    ∧ (real_fail ts s).1.system_status = "DEGRADED"
    ∧ (real_fail ts s).1.last_incident = some "Critical Failure: API Unresponsive"
    ∧ (real_fail ts s).1.workflows = s.workflows
    ∧ (real_fail ts s).2 =
        { ts := ts, type := "api_failure_demo", action := "restart_api",
          result := "Pending", severity := "HIGH", duration_ms := some 0 }
    ∧ (real_fail ts s).1.incidents = capIncidents ((real_fail ts s).2 :: s.incidents)
    ∧ (s.incidents.length ≤ 4 →
        (real_fail ts s).1.incidents = (real_fail ts s).2 :: s.incidents)
    ∧ (s.incidents.length = 5 →
        (real_fail ts s).1.incidents = (real_fail ts s).2 :: s.incidents.dropLast) := by
  refine ⟨rfl, rfl, ?_, rfl, rfl, rfl, rfl, rfl, rfl, ?_, ?_⟩
  · show setWf0Status "Retrying..." s.workflows = _
    rw [h, setWf0Status]
  · intro hl
    show capIncidents (failIncident ts :: s.incidents) = failIncident ts :: s.incidents
    rw [capIncidents_cons, if_neg (by omega)]
  · intro hl
    show capIncidents (failIncident ts :: s.incidents) = failIncident ts :: s.incidents.dropLast
    rw [capIncidents_cons, if_pos (by omega)]

theorem C2_fail_transitions_witness :
    initState.workflows = wfIncidentAgent :: [wfEvidenceAgent, wfBackupAgent, wfForecastRefresh]
    ∧ ((simulate_fail initState).system_status = "DEGRADED"
    ∧ (simulate_fail initState).last_incident = some "API Latency Spike detected"
    ∧ (simulate_fail initState).workflows =
        { wfIncidentAgent with status := "Retrying..." }
          :: [wfEvidenceAgent, wfBackupAgent, wfForecastRefresh]
    ∧ (simulate_fail initState).incidents = initState.incidents
    ∧ (real_fail "00:00:01" initState).1.system_status = "DEGRADED"
    ∧ (real_fail "00:00:01" initState).1.last_incident =
        some "Critical Failure: API Unresponsive"
    ∧ (real_fail "00:00:01" initState).1.workflows = initState.workflows
    ∧ (real_fail "00:00:01" initState).2 =
        { ts := "00:00:01", type := "api_failure_demo", action := "restart_api",
          result := "Pending", severity := "HIGH", duration_ms := some 0 }
    ∧ (real_fail "00:00:01" initState).1.incidents =
        capIncidents ((real_fail "00:00:01" initState).2 :: initState.incidents)
    ∧ (initState.incidents.length ≤ 4 →
        (real_fail "00:00:01" initState).1.incidents =
          (real_fail "00:00:01" initState).2 :: initState.incidents)
    ∧ (initState.incidents.length = 5 →
        (real_fail "00:00:01" initState).1.incidents =
          (real_fail "00:00:01" initState).2 :: initState.incidents.dropLast)) :=
  ⟨rfl, C2_fail_transitions initState "00:00:01" wfIncidentAgent
    [wfEvidenceAgent, wfBackupAgent, wfForecastRefresh] rfl⟩

/-- The two `time.sleep` calls inside `real_heal` total three seconds, so any
measured elapsed time of the heal is at least this many milliseconds. -/
def realHealSleepMs : Nat := 2000 + 1000

/-- C1 counterexample: after a concrete `real_fail`, `real_heal` does mutate
the pending record, but writes the hardcoded simulated value `12800` into
`duration_ms` — not the measured elapsed time of the heal (the code never
measures one; its sleeps total `realHealSleepMs = 3000`). -/
theorem C1_duration_counterexample :
    (real_heal "12:00:05" (real_fail "12:00:00" initState).1).2.duration_ms = some 12800
    ∧ realHealSleepMs = 3000 ∧ (12800 : Nat) ≠ 3000 :=
  ⟨rfl, rfl, by decide⟩

/-- C1 (corrected): from any state, `real_fail` logs a `Pending` record at the
front of the log, and a subsequent `real_heal` ends with health `OK` and
produces exactly one incident record for that failure: it mutates the existing
`Pending` record in place to `result = Recovered` — appending no second
record, so the log length is unchanged — but fills `duration_ms` with the
fixed simulated restart time `12800` ms rather than a measured elapsed
time. -/
theorem C1_fail_heal_single_record (ts0 ts1 : String) (s : OpState) :
    (real_heal ts1 (real_fail ts0 s).1).1.system_status = "OK"
    ∧ (real_fail ts0 s).1.incidents.head? = some (failIncident ts0)
    ∧ (real_heal ts1 (real_fail ts0 s).1).1.incidents
        = { failIncident ts0 with result := "Recovered", duration_ms := some 12800 }
          :: (real_fail ts0 s).1.incidents.tail
    ∧ (real_heal ts1 (real_fail ts0 s).1).1.incidents.length
        = (real_fail ts0 s).1.incidents.length := by
  have hfi : (real_fail ts0 s).1.incidents
      = failIncident ts0 :: (if 5 ≤ s.incidents.length then s.incidents.dropLast
          else s.incidents) := by
    show capIncidents (failIncident ts0 :: s.incidents) = _
    exact capIncidents_cons _ _
  have hhm : healMatch (real_fail ts0 s).1.incidents
      = some (({ failIncident ts0 with result := "Recovered", duration_ms := some 12800 })
          :: (if 5 ≤ s.incidents.length then s.incidents.dropLast else s.incidents),
        { failIncident ts0 with result := "Recovered", duration_ms := some 12800 }) := by
    rw [hfi]
    exact healMatch_cons_pending _ _ rfl rfl
  rw [real_heal, hhm]
  refine ⟨rfl, ?_, ?_, ?_⟩ <;> rw [hfi] <;> rfl

/-- Five `self_heal` calls from the initial state: each inserts one `Resolved`
incident, filling the log to its 5-entry cap with no pending
`api_failure_demo` record. -/
def healedFiveTimes : OpState :=
  (self_heal "t5" 2000 (self_heal "t4" 2000 (self_heal "t3" 2000
    (self_heal "t2" 2000 (self_heal "t1" 2000 initState).1).1).1).1).1

/-- C3 (code bug): the fallback branch of `real_heal` — the one that
synthesizes a `manual restart` incident when no pending one matches — inserts
into the log without applying the 5-entry eviction: after five `self_heal`
insertions the log is full, and one more `real_heal` leaves six entries,
violating the documented bound. The other two insertion sites (`self_heal`,
`real_fail`) do evict. -/
theorem C3_fallback_insert_overflows :
    healedFiveTimes.incidents.length = 5
    ∧ (real_heal "t6" healedFiveTimes).1.incidents.length = 6 :=
  ⟨rfl, rfl⟩

/-- C7 (confirmed): `real_heal` invoked from any state with no pending
`api_failure_demo` incident still ends with health `OK` and inserts a newly
synthesized manual-restart incident record (type `api_restart_manual`, action
`restart_api`) at the front of the log. -/
theorem C7_heal_synthesizes_manual (ts : String) (s : OpState)
    (h : ∀ inc ∈ s.incidents, ¬(inc.type = "api_failure_demo" ∧ inc.result = "Pending")) :
    (real_heal ts s).1.system_status = "OK"
    ∧ (real_heal ts s).1.incidents = manualIncident ts :: s.incidents
    ∧ (real_heal ts s).2 = manualIncident ts
    ∧ (manualIncident ts).type = "api_restart_manual"
    ∧ (manualIncident ts).action = "restart_api" := by
  rw [real_heal, healMatch_eq_none s.incidents h]
  exact ⟨rfl, rfl, rfl, rfl, rfl⟩

theorem C7_heal_synthesizes_manual_witness :
    (∀ inc ∈ initState.incidents, ¬(inc.type = "api_failure_demo" ∧ inc.result = "Pending"))
    ∧ ((real_heal "09:00:00" initState).1.system_status = "OK"
    ∧ (real_heal "09:00:00" initState).1.incidents =
        manualIncident "09:00:00" :: initState.incidents
    ∧ (real_heal "09:00:00" initState).2 = manualIncident "09:00:00"
    ∧ (manualIncident "09:00:00").type = "api_restart_manual"
    ∧ (manualIncident "09:00:00").action = "restart_api") :=
  ⟨by simp [initState], C7_heal_synthesizes_manual "09:00:00" initState (by simp [initState])⟩

/-! Injectivity of the decimal rendering used in artifact names, and the
backup/evidence claims. -/

theorem digitChar_inj_of_lt {d e : Nat} (hd : d < 10) (he : e < 10)
    (h : Nat.digitChar d = Nat.digitChar e) : d = e := by
  interval_cases d <;> interval_cases e <;> revert h <;> decide

theorem map_digitChar_inj : ∀ (l1 l2 : List Nat), (∀ x ∈ l1, x < 10) → (∀ x ∈ l2, x < 10) →
    l1.map Nat.digitChar = l2.map Nat.digitChar → l1 = l2
  | [], [], _, _, _ => rfl
  | [], _ :: _, _, _, h => by simp at h
  | _ :: _, [], _, _, h => by simp at h
  | a :: t1, b :: t2, h1, h2, h => by
    simp only [List.map_cons, List.cons.injEq] at h
    have hab := digitChar_inj_of_lt (h1 a (List.mem_cons_self a t1))
      (h2 b (List.mem_cons_self b t2)) h.1
    have htl := map_digitChar_inj t1 t2 (fun x hx => h1 x (List.mem_cons_of_mem a hx))
      (fun x hx => h2 x (List.mem_cons_of_mem b hx)) h.2
    rw [hab, htl]

theorem decimalStr_injective : Function.Injective decimalStr := by
  intro m n h
  unfold decimalStr at h
  by_cases hm : m = 0 <;> by_cases hn : n = 0
  · omega
  · exfalso
    rw [if_pos hm, if_neg hn] at h
    have hd := congrArg String.data h
    have h0 : ("0" : String).data = ['0'] := rfl
    rw [h0] at hd
    have hmap : (Nat.digits 10 n).map Nat.digitChar = ['0'] := by
      have hr := congrArg List.reverse hd
      simpa using hr.symm
    have hdig : Nat.digits 10 n = [0] := by
      apply map_digitChar_inj
      · intro x hx; exact Nat.digits_lt_base (by norm_num) hx
      · intro x hx; simp at hx; omega
      · rw [hmap]; rfl
    have hnz := Nat.ofDigits_digits 10 n
    rw [hdig] at hnz
    simp [Nat.ofDigits] at hnz
    exact hn hnz.symm
  · exfalso
    rw [if_neg hm, if_pos hn] at h
    have hd := congrArg String.data h
    have h0 : ("0" : String).data = ['0'] := rfl
    rw [h0] at hd
    have hmap : (Nat.digits 10 m).map Nat.digitChar = ['0'] := by
      have hr := congrArg List.reverse hd
      simpa using hr
    have hdig : Nat.digits 10 m = [0] := by
      apply map_digitChar_inj
      · intro x hx; exact Nat.digits_lt_base (by norm_num) hx
      · intro x hx; simp at hx; omega
      · rw [hmap]; rfl
    have hmz := Nat.ofDigits_digits 10 m
    rw [hdig] at hmz
    simp [Nat.ofDigits] at hmz
    exact hm hmz.symm
  · rw [if_neg hm, if_neg hn] at h
    have hd := congrArg String.data h
    have hmap : (Nat.digits 10 m).map Nat.digitChar = (Nat.digits 10 n).map Nat.digitChar := by
      have hr := congrArg List.reverse hd
      simpa using hr
    have hdig := map_digitChar_inj _ _
      (fun x hx => Nat.digits_lt_base (by norm_num) hx)
      (fun x hx => Nat.digits_lt_base (by norm_num) hx) hmap
    exact Nat.digits.injective 10 hdig

theorem evidencePackId_inj {t1 t2 : Nat} (h : evidencePackId t1 = evidencePackId t2) :
    t1 = t2 := by
  apply decimalStr_injective
  have hd := congrArg String.data h
  simp only [evidencePackId, String.data_append] at hd
  exact String.ext (List.append_cancel_left hd)

/-- C8 counterexample: two consecutive `build_evidence_pack` calls that observe
the same whole-second clock value (`int(time.time()) = 100` for both) produce
the same pack identifier and write the same archive path, so the later pack
overwrites the earlier one instead of being distinct. -/
theorem C8_counterexample : (100 : Nat) ≤ 100 ∧ ¬ packsDistinct 100 100 :=
  ⟨le_refl 100, fun hp => hp.1 rfl⟩

/-- C8 (corrected): two `build_evidence_pack` calls produce distinct pack
identifiers and distinct archive paths exactly when they observe different
whole-second clock values; the identifier embeds only `int(time.time())`, so
calls within the same second collide and the later archive overwrites the
earlier. -/
theorem C8_distinct_packs (t1 t2 : Nat) (h : t1 ≠ t2) : packsDistinct t1 t2 := by
  constructor
  · intro he
    exact h (evidencePackId_inj he)
  · intro he
    apply h
    apply evidencePackId_inj
    have hd := congrArg String.data he
    simp only [evidenceZipPath, String.data_append] at hd
    exact String.ext (List.append_cancel_right (List.append_cancel_left hd))

theorem C8_distinct_packs_witness : (100 : Nat) ≠ 101 ∧ packsDistinct 100 101 :=
  ⟨by decide, C8_distinct_packs 100 101 (by decide)⟩

theorem backupFilename_ne_empty (t : Nat) : backupFilename t ≠ "" := by
  intro h'
  have hd := congrArg String.data h'
  have h0 : ("" : String).data = [] := rfl
  simp only [backupFilename, String.data_append, h0, List.append_eq_nil] at hd
  have : ("backup_" : String).data = [] := hd.1.1
  have hne : ("backup_" : String) ≠ "" := by decide
  exact hne (String.ext this)

def witnessBackup : Backup :=
  { ts := some "2026-01-01T00:00:00", file := some "b.tar.gz", size := 5 }

def witnessFsize : String → Option Nat :=
  fun p => if p = backupPath "b.tar.gz" then some 5 else none

/-- C9 (confirmed): `verify_backup` fails with `NotFound` exactly when no
backup record exists (the reference is `None`; records ever created by
`run_backup` carry a nonempty `backup_<t>.tar.gz` name, and the initial state
carries `None`); with a record present it fails with `IntegrityError` exactly
when the referenced archive is missing or has size zero, and succeeds
otherwise. -/
theorem C9_verify_backup (lb : Backup) (fsize : String → Option Nat)
    (hne : lb.file ≠ some "") :
    (verify_backup lb fsize = .error (.notFound "No backup found") ↔ lb.file = none)
    ∧ (∀ f, lb.file = some f →
        (verify_backup lb fsize = .error (.integrityError "Backup file missing or empty")
          ↔ fsize (backupPath f) = none ∨ fsize (backupPath f) = some 0))
    ∧ (∀ f sz, lb.file = some f → fsize (backupPath f) = some sz → 0 < sz →
        verify_backup lb fsize = .ok ())
    ∧ initState.last_backup.file = none
    ∧ (∀ iso t sz, (run_backup iso t sz).file = some (backupFilename t))
    ∧ (∀ t, backupFilename t ≠ "") := by
  refine ⟨?_, ?_, ?_, rfl, fun iso t sz => rfl, backupFilename_ne_empty⟩
  · rcases hf : lb.file with _ | f
    · simp [verify_backup, hf]
    · have hfe : f ≠ "" := fun he => hne (by rw [hf, he])
      rcases hsf : fsize (backupPath f) with _ | sz
      · simp [verify_backup, hf, hfe, hsf]
      · rcases Nat.eq_zero_or_pos sz with hsz | hsz
        · subst hsz; simp [verify_backup, hf, hfe, hsf]
        · simp [verify_backup, hf, hfe, hsf, hsz]
  · intro f hf
    have hfe : f ≠ "" := fun he => hne (by rw [hf, he])
    rcases hsf : fsize (backupPath f) with _ | sz
    · simp [verify_backup, hf, hfe, hsf]
    · rcases Nat.eq_zero_or_pos sz with hsz | hsz
      · subst hsz; simp [verify_backup, hf, hfe, hsf]
      · have hsz' : sz ≠ 0 := Nat.pos_iff_ne_zero.mp hsz
        simp [verify_backup, hf, hfe, hsf, hsz, hsz']
  · intro f sz hf hs hpos
    have hfe : f ≠ "" := fun he => hne (by rw [hf, he])
    simp [verify_backup, hf, hfe, hs, hpos]

theorem C9_verify_backup_witness :
    witnessBackup.file ≠ some ""
    ∧ ((verify_backup witnessBackup witnessFsize = .error (.notFound "No backup found")
          ↔ witnessBackup.file = none)
    ∧ (∀ f, witnessBackup.file = some f →
        (verify_backup witnessBackup witnessFsize
            = .error (.integrityError "Backup file missing or empty")
          ↔ witnessFsize (backupPath f) = none ∨ witnessFsize (backupPath f) = some 0))
    ∧ (∀ f sz, witnessBackup.file = some f → witnessFsize (backupPath f) = some sz →
        0 < sz → verify_backup witnessBackup witnessFsize = .ok ())
    ∧ initState.last_backup.file = none
    ∧ (∀ iso t sz, (run_backup iso t sz).file = some (backupFilename t))
    ∧ (∀ t, backupFilename t ≠ "")) :=
  ⟨by decide, C9_verify_backup witnessBackup witnessFsize (by decide)⟩

end ZeroCampus
